import Mathlib

/-!
Verification of the WebRTC screen-sharing relay (`main.cpp` of the relay,
namespace `receiver`) against its natural-language specification.

The embedding translates the relay's handlers into pure Lean functions.
Calls into external collaborators (the media engine, the WebSocket
transport, the JSON library) are modelled as explicit `Effect` values
emitted in program order, and the results of asynchronous engine
operations are passed in as parameters.  Exceptions that escape a handler
(boost::json throws on malformed input, `absl::optional::value` throws on
an empty optional) are modelled by the `thrown` field of a handler's
result.
-/

namespace Relay

/-- The WebRTC signaling states, from `webrtc::PeerConnectionInterface`. -/
inductive SignalingState where
  | kStable
  | kHaveLocalOffer
  | kHaveLocalPrAnswer
  | kHaveRemoteOffer
  | kHaveRemotePrAnswer
  | kClosed
deriving DecidableEq, Repr

/-- SDP description types, from `webrtc::SdpType`. -/
inductive SdpType where
  | offer
  | prAnswer
  | answer
  | rollback
deriving DecidableEq, Repr

/-- `webrtc::SdpTypeFromString`: the four recognised type strings; any
other string yields `none` (and `.value()` on that optional throws). -/
def sdpTypeFromString (s : String) : Option SdpType :=
  if s = "offer" then some SdpType.offer
  else if s = "pranswer" then some SdpType.prAnswer
  else if s = "answer" then some SdpType.answer
  else if s = "rollback" then some SdpType.rollback
  else none

/-- A JSON value as produced by `boost::json::parse` (arrays are not
inspected by the relay and are omitted). -/
inductive Json where
  | null
  | jbool (b : Bool)
  | jint (n : Int)
  | jstr (s : String)
  | jobj (fields : List (String × Json))

/-- `boost::json::object::contains`. -/
def containsKey (fields : List (String × Json)) (key : String) : Bool :=
  fields.any (fun kv => kv.1 == key)

/-- `boost::json::object::operator[]` on a non-const object: the stored
value when the key is present, a fresh `null` otherwise. -/
def getField (fields : List (String × Json)) (key : String) : Json :=
  match fields.find? (fun kv => kv.1 == key) with
  | some kv => kv.2
  | none => Json.null

/-- `boost::json::value::as_object`: throws unless the value is an object. -/
def Json.asObject : Json → Except Unit (List (String × Json))
  | Json.jobj fields => Except.ok fields
  | _ => Except.error ()

/-- `boost::json::value::as_string`: throws unless the value is a string. -/
def Json.asString : Json → Except Unit String
  | Json.jstr s => Except.ok s
  | _ => Except.error ()

/-- `boost::json::value::as_int64`: throws unless the value is an integer. -/
def Json.asInt64 : Json → Except Unit Int
  | Json.jint n => Except.ok n
  | _ => Except.error ()

/-- WebSocket close status codes used by the relay. -/
inductive CloseStatus where
  | goingAway
  | subprotocolError
deriving DecidableEq, Repr

/-- An outbound JSON envelope sent over the signaling socket. -/
inductive SentMsg where
  | description (sdpType : String) (sdp : String)
  | candidate (candidate : String) (sdpMid : String) (sdpMLineIndex : Int)
deriving DecidableEq, Repr

/-- An observable action performed by a handler, in program order.
External calls into the media engine and the socket are effects; their
results, where a handler inspects them, are parameters of the handler. -/
inductive Effect where
  | logError (msg : String)
  | logWarning (msg : String)
  | logInfo (msg : String)
  | setRemoteDescription (sdpType : String) (sdp : String) (isOffer : Bool)
  | setLocalDescription
  | addIceCandidate (sdpMid : String) (sdpMLineIndex : Int) (candidate : String)
  | removeTrack (sender : Nat)
  | addTrack (track : Nat) (streamLabel : String)
  | sendText (payload : SentMsg)
  | closeSocket (status : CloseStatus) (reason : String)
  | registerSink (hdl : Nat)
deriving DecidableEq, Repr

/-- The mutable state of one `webrtc_observer` (peer adapter).  Senders,
tracks and transceivers are identified by numeric ids; a transceiver id
also stands for the underlying track of its receiver. -/
structure ObserverState where
  signalingState : SignalingState
  ignoreOffer : Bool
  makingOffer : Bool
  currentSender : Option Nat
deriving DecidableEq, Repr

/-- `webrtc_observer`'s constructor: `current_sender{}`, `ignore_offer{}`,
`making_offer{}`; a fresh peer connection starts in the stable state. -/
def newObserver : ObserverState :=
  { signalingState := SignalingState.kStable
    ignoreOffer := false
    makingOffer := false
    currentSender := none }

/-- `static constexpr auto polite = false;` of `webrtc_observer`. -/
def polite : Bool := false

/-- An exception escaping a handler: boost::json throws on malformed
input or a wrongly typed access, `absl::optional::value()` throws when
the optional is empty. -/
inductive RelayExn where
  | jsonException
  | badOptionalAccess
deriving DecidableEq, Repr

/-- The outcome of running a message handler: the adapter state after the
handler, the effects it performed before returning or throwing, and the
exception that escaped it, if any. -/
structure OnMessageResult where
  state : ObserverState
  effects : List Effect
  thrown : Option RelayExn
deriving DecidableEq, Repr

/-- `webrtc_observer::on_message`.  `opcode` is the WebSocket frame
opcode (1 = text); `parsed` is the result of `boost::json::parse` on the
payload (`Except.error` when the parse throws); `candidateParseOk` is
whether `webrtc::CreateIceCandidate` returns a non-null candidate. -/
def on_message (st : ObserverState) (opcode : Nat)
    (parsed : Except Unit Json) (candidateParseOk : Bool) : OnMessageResult :=
  if opcode != 1 then
    { state := st
      effects := [Effect.logWarning "I dont know how to use this frame"]
      thrown := none }
  else
    match parsed with
    | Except.error _ =>
        { state := st, effects := [], thrown := some RelayExn.jsonException }
    | Except.ok j =>
        match j.asObject with
        | Except.error _ =>
            { state := st, effects := [], thrown := some RelayExn.jsonException }
        | Except.ok payload =>
            if containsKey payload "description" then
              match (getField payload "description").asObject with
              | Except.error _ =>
                  { state := st, effects := [], thrown := some RelayExn.jsonException }
              | Except.ok offer =>
                  match (getField offer "type").asString with
                  | Except.error _ =>
                      { state := st, effects := []
                        thrown := some RelayExn.jsonException }
                  | Except.ok ty =>
                      let offerCollision :=
                        ty == "offer" &&
                          (st.makingOffer ||
                            st.signalingState != SignalingState.kStable)
                      let ignoreOffer := !polite && offerCollision
                      let st := { st with ignoreOffer := ignoreOffer }
                      if ignoreOffer then
                        { state := st, effects := [], thrown := none }
                      else
                        match sdpTypeFromString ty with
                        | none =>
                            { state := st, effects := []
                              thrown := some RelayExn.badOptionalAccess }
                        | some _ =>
                            match (getField offer "sdp").asString with
                            | Except.error _ =>
                                { state := st, effects := []
                                  thrown := some RelayExn.jsonException }
                            | Except.ok sdp =>
                                let isOffer := ty == "offer"
                                { state := st
                                  effects :=
                                    [Effect.setRemoteDescription ty sdp isOffer]
                                  thrown := none }
            else if containsKey payload "candidate" then
              match (getField payload "candidate").asObject with
              | Except.error _ =>
                  { state := st, effects := [], thrown := some RelayExn.jsonException }
              | Except.ok blob =>
                  match (getField blob "sdpMid").asString,
                        (getField blob "sdpMLineIndex").asInt64,
                        (getField blob "candidate").asString with
                  | Except.ok mid, Except.ok idx, Except.ok cand =>
                      if !candidateParseOk then
                        { state := st
                          effects := [Effect.logError "failed to parse ICE candidate: "]
                          thrown := none }
                      else
                        { state := st
                          effects := [Effect.addIceCandidate mid idx cand]
                          thrown := none }
                  | _, _, _ =>
                      { state := st, effects := []
                        thrown := some RelayExn.jsonException }
            else
              { state := st, effects := [], thrown := none }

/-- The lambda passed to `peer->AddIceCandidate`: on completion, if the
error is not ok, log it.  `ignore_offer` is not consulted. -/
def add_ice_candidate_callback (st : ObserverState) (errOk : Bool) :
    ObserverState × List Effect :=
  if errOk then (st, [])
  else (st, [Effect.logError "failed to set ICE candidate with error:"])

/-- `remote_desc_observer::OnSetRemoteDescriptionComplete`: when the
stored `is_offer` flag is set, call `peer->SetLocalDescription` with a
fresh `local_desc_observer` (the error is not inspected). -/
def onSetRemoteDescriptionComplete (isOffer : Bool) : List Effect :=
  if isOffer then [Effect.setLocalDescription] else []

/-- `local_desc_observer::OnSetLocalDescriptionComplete`: on failure log
an error; on success log, serialize the local description (`descType`,
`sdp`, with `serializeOk` the result of `desc->ToString`) and send the
`description` envelope on the signaling socket. -/
def onSetLocalDescriptionComplete (st : ObserverState) (errOk : Bool)
    (descType : String) (sdp : String) (serializeOk : Bool) :
    ObserverState × List Effect :=
  if !errOk then (st, [Effect.logError "SetLocalDescription failed:"])
  else if !serializeOk then
    (st, [Effect.logInfo "SetLocalDescription succeeded",
          Effect.logError "failed to serialize SDP"])
  else
    (st, [Effect.logInfo "SetLocalDescription succeeded",
          Effect.sendText (SentMsg.description descType sdp)])

/-- One primitive step of the task posted by
`webrtc_observer::OnNegotiationNeededEvent`. -/
inductive NegotiationStep where
  | setMakingOffer (b : Bool)
  | initiateSetLocalDescription
deriving DecidableEq, Repr

/-- The body of the task `OnNegotiationNeededEvent` posts onto the signal
thread, as the ordered sequence of its primitive steps.  `shouldFire` is
the result of `peer->ShouldFireNegotiationNeededEvent(id)`.  Note that
`making_offer = false` is the last synchronous step of the task; the
asynchronous completion (`onSetLocalDescriptionComplete`) runs later. -/
def onNegotiationNeededTask (shouldFire : Bool) : List NegotiationStep :=
  if shouldFire then
    [NegotiationStep.setMakingOffer true,
     NegotiationStep.initiateSetLocalDescription,
     NegotiationStep.setMakingOffer false]
  else []

/-- Effect of one negotiation-needed step on the adapter state. -/
def applyNegotiationStep (st : ObserverState) : NegotiationStep → ObserverState
  | NegotiationStep.setMakingOffer b => { st with makingOffer := b }
  | NegotiationStep.initiateSetLocalDescription => st

/-- The adapter state once the posted negotiation-needed task has run to
completion (the asynchronous set-local-description completion has not
yet been delivered at this point). -/
def runNegotiationTask (st : ObserverState) (shouldFire : Bool) : ObserverState :=
  (onNegotiationNeededTask shouldFire).foldl applyNegotiationStep st

/-- `transceiver->receiver()->track()`: a transceiver id stands for the
underlying track of its receiver. -/
def receiverTrack (transceiver : Nat) : Nat := transceiver

/-- `webrtc_observer::switch_track`.  `removeOk` is the result of
`peer->RemoveTrackOrError` (consulted only when `current_sender` is set)
and `addResult` is the sender returned by `peer->AddTrack`, `none` on
failure.  In every path the function returns with `currentSender`
unchanged: the sender returned by `AddTrack` is only logged, never
stored. -/
def switch_track (st : ObserverState) (transceiver : Nat)
    (removeOk : Bool) (addResult : Option Nat) : ObserverState × List Effect :=
  match st.currentSender with
  | some sender =>
      if removeOk then
        let effs := [Effect.logInfo "removing existing track sender",
                     Effect.removeTrack sender]
        match addResult with
        | none =>
            (st, effs ++ [Effect.addTrack (receiverTrack transceiver) "mirrored_stream",
                          Effect.logError "failed to add track:"])
        | some _ =>
            (st, effs ++ [Effect.addTrack (receiverTrack transceiver) "mirrored_stream",
                          Effect.logInfo "added track to peer"])
      else
        (st, [Effect.logInfo "removing existing track sender",
              Effect.removeTrack sender,
              Effect.logError "failed to remove existing track from peer:"])
  | none =>
      match addResult with
      | none =>
          (st, [Effect.addTrack (receiverTrack transceiver) "mirrored_stream",
                Effect.logError "failed to add track:"])
      | some _ =>
          (st, [Effect.addTrack (receiverTrack transceiver) "mirrored_stream",
                Effect.logInfo "added track to peer"])

/-- The state of `sink_server`: the registry mapping connection handles
to their peer adapters, and the stored transceiver (the FanOut's active
track reference, set by `switch_source` and never cleared). -/
structure SinkServerState where
  connections : List (Nat × ObserverState)
  transceiver : Option Nat
deriving DecidableEq, Repr

/-- `connections.find(c)` on the sink registry. -/
def lookupCon (connections : List (Nat × ObserverState)) (hdl : Nat) :
    Option ObserverState :=
  match connections.find? (fun kv => kv.1 == hdl) with
  | some kv => some kv.2
  | none => none

/-- `connections[c] = peer`: update in place when present, append
otherwise. -/
def insertCon (connections : List (Nat × ObserverState)) (hdl : Nat)
    (peer : ObserverState) : List (Nat × ObserverState) :=
  match connections with
  | [] => [(hdl, peer)]
  | kv :: rest =>
      if kv.1 == hdl then (hdl, peer) :: rest
      else kv :: insertCon rest hdl peer

/-- `sink_server::on_open`.  A registry hit leaves everything unchanged;
otherwise a fresh adapter is built, the stored transceiver (if any) is
published into it via `switch_track`, and only then is the adapter
registered.  `removeOk` and `addResult` are the engine results consumed
by `switch_track`. -/
def sink_on_open (st : SinkServerState) (hdl : Nat)
    (removeOk : Bool) (addResult : Option Nat) : SinkServerState × List Effect :=
  let effs0 := [Effect.logInfo "New sink has appeared"]
  match lookupCon st.connections hdl with
  | some _ => (st, effs0)
  | none =>
      let peer := newObserver
      let publish :=
        match st.transceiver with
        | some t => switch_track peer t removeOk addResult
        | none => (peer, [])
      ({ st with connections := insertCon st.connections hdl publish.1 },
       effs0 ++ publish.2 ++ [Effect.registerSink hdl])

/-- `sink_server::on_close`: erase the handle's registry entry (releasing
its adapter) when present. -/
def sink_on_close (st : SinkServerState) (hdl : Nat) :
    SinkServerState × List Effect :=
  match lookupCon st.connections hdl with
  | some _ =>
      ({ st with connections := st.connections.filter (fun kv => kv.1 != hdl) },
       [Effect.logWarning "source disconnected"])
  | none => (st, [])

/-- `sink_server::switch_source`: store the transceiver and publish it
into every registered adapter.  The per-sink engine results are supplied
by `results : Nat → Bool × Option Nat` keyed by connection handle. -/
def switch_source (st : SinkServerState) (transceiver : Nat)
    (results : Nat → Bool × Option Nat) : SinkServerState × List Effect :=
  let st := { st with transceiver := some transceiver }
  let step := fun (acc : List (Nat × ObserverState) × List Effect)
      (kv : Nat × ObserverState) =>
    let r := results kv.1
    let out := switch_track kv.2 transceiver r.1 r.2
    (acc.1 ++ [(kv.1, out.1)], acc.2 ++ out.2)
  let folded := st.connections.foldl step ([], [Effect.logInfo "switching sources"])
  ({ st with connections := folded.1 }, folded.2)

/-- The state of `source_server`: the single stored connection handle and
its peer adapter. -/
structure SourceServerState where
  connection : Option Nat
  peer : Option ObserverState
deriving DecidableEq, Repr

/-- `source_server::on_open`: when a connection is already stored, log a
warning and return (the new socket is not closed); otherwise store the
handle and build a fresh adapter. -/
def source_on_open (st : SourceServerState) (hdl : Nat) :
    SourceServerState × List Effect :=
  match st.connection with
  | some _ =>
      (st, [Effect.logWarning "rejecting sink connection; one already exists"])
  | none =>
      ({ connection := some hdl, peer := some newObserver }, [])

/-- `source_server::on_close`: when the closing handle is the stored one,
clear both the connection and the peer slot. -/
def source_on_close (st : SourceServerState) (hdl : Nat) :
    SourceServerState × List Effect :=
  if st.connection == some hdl then
    ({ connection := none, peer := none }, [Effect.logWarning "source disconnected"])
  else (st, [])

/-- The relay's combined endpoint state: `source_server` holds a
reference to `sink_server`, whose `transceiver` field is the FanOut's
active-track slot. -/
structure RelayState where
  source : SourceServerState
  sink : SinkServerState
deriving DecidableEq, Repr

/-- `source_server::on_close` in the context of the whole relay: only the
source endpoint's own slots are touched; the sink server (and its stored
transceiver) is not. -/
def relay_source_on_close (st : RelayState) (hdl : Nat) :
    RelayState × List Effect :=
  let out := source_on_close st.source hdl
  ({ st with source := out.1 }, out.2)

/-- The two WebSocket endpoints of the relay. -/
inductive Endpoint where
  | source
  | sink
deriving DecidableEq, Repr

/-- One step of the process-wide shutdown sequence. -/
inductive ShutdownAction where
  | stopListening (e : Endpoint)
  | closeAllSockets (e : Endpoint) (status : CloseStatus) (reason : String)
  | stopServer (e : Endpoint)
  | joinThread (e : Endpoint)
  | releasePeers (e : Endpoint)
  | stopMediaEngine
deriving DecidableEq, Repr

/-- `socket_server::shut_down`: `stop_listening`, then `stop`, then join
the server thread.  The `self().close_all()` call is commented out in
the source, so no sockets are closed here. -/
def shut_down (e : Endpoint) : List ShutdownAction :=
  [ShutdownAction.stopListening e, ShutdownAction.stopServer e,
   ShutdownAction.joinThread e]

/-- The shutdown path of `main` after the console loop exits, in the
order the destructors run: `sink_session` (constructed last) shuts the
sink endpoint down, then `source_session` shuts the source endpoint
down, then `source` and `sink` are destroyed releasing their peer
adapters, and finally the factory is destroyed stopping the media
engine. -/
def supervisorShutdown : List ShutdownAction :=
  shut_down Endpoint.sink ++ shut_down Endpoint.source ++
    [ShutdownAction.releasePeers Endpoint.source,
     ShutdownAction.releasePeers Endpoint.sink,
     ShutdownAction.stopMediaEngine]

/-- `sink_server::close_all` (present in the source, but not invoked by
`shut_down`): close every registered socket with a going-away reason and
clear the registry. -/
def sink_close_all (st : SinkServerState) : SinkServerState × List Effect :=
  ({ st with connections := [] },
   [Effect.logInfo "closing source connections"] ++
     st.connections.map
       (fun _ => Effect.closeSocket CloseStatus.goingAway "Server shutting down"))

/-- `source_server::close_all` (present in the source, but not invoked by
`shut_down`): close the stored socket, if any, with a going-away reason. -/
def source_close_all (st : SourceServerState) : SourceServerState × List Effect :=
  match st.connection with
  | some _ =>
      ({ st with peer := none },
       [Effect.logInfo "closing source connection",
        Effect.closeSocket CloseStatus.goingAway "Server shutting down"])
  | none => (st, [])

/-- The wire shape of a `description` envelope, used to build concrete
inbound messages: an object whose single key `description` holds an
object with string fields `type` and `sdp`. -/
def descriptionPayload (ty sdp : String) : Json :=
  Json.jobj [("description", Json.jobj [("type", Json.jstr ty), ("sdp", Json.jstr sdp)])]

/-- The shutdown order stated by the spec, written from its words: stop
accepting on both endpoints, close all sink sockets with a going-away
reason, close the source socket, release the peer connections, stop the
media engine, join the listener threads. -/
def specShutdownOrder : List ShutdownAction :=
  [ShutdownAction.stopListening Endpoint.source,
   ShutdownAction.stopListening Endpoint.sink,
   ShutdownAction.closeAllSockets Endpoint.sink CloseStatus.goingAway
     "Server shutting down",
   ShutdownAction.closeAllSockets Endpoint.source CloseStatus.goingAway
     "Server shutting down",
   ShutdownAction.releasePeers Endpoint.source,
   ShutdownAction.releasePeers Endpoint.sink,
   ShutdownAction.stopMediaEngine,
   ShutdownAction.joinThread Endpoint.source,
   ShutdownAction.joinThread Endpoint.sink]

/-- C1 counterexample: with source connection 1 already stored, a second
accept (handle 2) only logs a warning — the effect list contains no
`closeSocket`, so the new socket is not closed with a going-away reason
as the claim states. -/
theorem C1_counterexample :
    source_on_open { connection := some 1, peer := some newObserver } 2 =
      ({ connection := some 1, peer := some newObserver },
       [Effect.logWarning "rejecting sink connection; one already exists"]) := rfl

/-- C1 (amended): on an accept while a source connection is stored, the
endpoint logs a warning and returns; the newly accepted socket is left
open (no close effect of any status), and the stored connection and peer
are unchanged. -/
theorem C1_duplicate_accept (st : SourceServerState) (hdl c : Nat)
    (h : st.connection = some c) :
    (source_on_open st hdl).1 = st ∧
    (source_on_open st hdl).2 =
      [Effect.logWarning "rejecting sink connection; one already exists"] ∧
    ∀ status reason, Effect.closeSocket status reason ∉ (source_on_open st hdl).2 := by
  simp [source_on_open, h]

/-- C1 witness: the amended statement at the concrete state holding
connection 1 with a fresh adapter, on a second accept with handle 2. -/
theorem C1_duplicate_accept_witness :
    (source_on_open { connection := some 1, peer := some newObserver } 2).1 =
      { connection := some 1, peer := some newObserver } ∧
    (source_on_open { connection := some 1, peer := some newObserver } 2).2 =
      [Effect.logWarning "rejecting sink connection; one already exists"] ∧
    ∀ status reason, Effect.closeSocket status reason ∉
      (source_on_open { connection := some 1, peer := some newObserver } 2).2 :=
  C1_duplicate_accept { connection := some 1, peer := some newObserver } 2 1 rfl

/-- C2 counterexample: once the posted negotiation-needed task has run —
before the asynchronous set-local-description completion is delivered —
`makingOffer` is already false, because the task itself ends with the
step clearing it; the claim requires it to remain true until the
completion. -/
theorem C2_counterexample :
    (runNegotiationTask newObserver true).makingOffer = false ∧
    onNegotiationNeededTask true =
      [NegotiationStep.setMakingOffer true,
       NegotiationStep.initiateSetLocalDescription,
       NegotiationStep.setMakingOffer false] := ⟨rfl, rfl⟩

/-- C2 (amended): `makingOffer` is set to true immediately before
initiating the set-local-description call and cleared immediately after
that call returns, within the same negotiation-needed task; the
asynchronous completion handler never modifies the adapter state, so
`makingOffer` is already false while the operation is still in flight. -/
theorem C2_making_offer_cleared_in_task (st : ObserverState)
    (errOk serOk : Bool) (t s : String) :
    onNegotiationNeededTask true =
      [NegotiationStep.setMakingOffer true,
       NegotiationStep.initiateSetLocalDescription,
       NegotiationStep.setMakingOffer false] ∧
    (runNegotiationTask st true).makingOffer = false ∧
    (onSetLocalDescriptionComplete st errOk t s serOk).1 = st := by
  refine ⟨rfl, rfl, ?_⟩
  cases errOk <;> cases serOk <;> rfl

/-- C3: for a sink adapter with no current sender, a successful
`switch_track` (the engine returns sender 4 for track 7) emits the
add-track call and the success log, but the resulting state still has
`currentSender = none` — the returned sender is discarded, and indeed no
path of `switch_track` ever modifies the adapter state. -/
theorem C3_sender_discarded :
    (switch_track newObserver 7 true (some 4)).1.currentSender = none ∧
    (switch_track newObserver 7 true (some 4)).2 =
      [Effect.addTrack 7 "mirrored_stream", Effect.logInfo "added track to peer"] ∧
    ∀ (st : ObserverState) (tr : Nat) (removeOk : Bool) (addResult : Option Nat),
      (switch_track st tr removeOk addResult).1 = st := by
  refine ⟨rfl, rfl, ?_⟩
  intro st tr removeOk addResult
  cases h : st.currentSender <;> cases removeOk <;> cases addResult <;>
    simp [switch_track, h]

/-- C4 counterexample: with `ignoreOffer = true`, a failed asynchronous
candidate addition still logs an error — the failure is not silently
swallowed as the claim states. -/
theorem C4_counterexample :
    add_ice_candidate_callback { newObserver with ignoreOffer := true } false =
      ({ newObserver with ignoreOffer := true },
       [Effect.logError "failed to set ICE candidate with error:"]) := rfl

/-- C4 (amended): every failed asynchronous candidate addition is
logged, regardless of `ignoreOffer`; a successful one logs nothing; and
in no case does the callback change the adapter state or close the
connection. -/
theorem C4_candidate_failure_always_logged (st : ObserverState) (errOk : Bool) :
    (add_ice_candidate_callback st errOk).1 = st ∧
    (add_ice_candidate_callback st errOk).2 =
      (if errOk then []
       else [Effect.logError "failed to set ICE candidate with error:"]) ∧
    ∀ status reason,
      Effect.closeSocket status reason ∉ (add_ice_candidate_callback st errOk).2 := by
  cases errOk <;> simp [add_ice_candidate_callback]

/-- C6 counterexample: on a text frame whose payload fails to parse, the
handler performs no effect at all — in particular it logs no warning —
and the `boost::json::parse` exception escapes it (`thrown` is set),
contradicting the claim that the handler logs a warning and does not
throw. -/
theorem C6_counterexample :
    on_message newObserver 1 (Except.error ()) true =
      { state := newObserver, effects := [], thrown := some RelayExn.jsonException } := rfl

/-- C6 (amended): on a text frame with malformed JSON, or with JSON that
is not an object, the handler propagates the JSON exception, logs
nothing, and leaves the adapter state unchanged; a non-text frame, by
contrast, is handled gracefully with a logged warning and no throw. -/
theorem C6_malformed_json_throws (st : ObserverState) (cand : Bool) :
    on_message st 1 (Except.error ()) cand =
      { state := st, effects := [], thrown := some RelayExn.jsonException } ∧
    on_message st 1 (Except.ok (Json.jstr "x")) cand =
      { state := st, effects := [], thrown := some RelayExn.jsonException } ∧
    on_message st 2 (Except.error ()) cand =
      { state := st
        effects := [Effect.logWarning "I dont know how to use this frame"]
        thrown := none } := ⟨rfl, rfl, rfl⟩

/-- C8 counterexample: the shutdown path never closes the sink sockets
with a going-away reason — `close_all` is commented out in
`socket_server::shut_down` — and the actual action sequence differs from
the order the claim states. -/
theorem C8_counterexample :
    ShutdownAction.closeAllSockets Endpoint.sink CloseStatus.goingAway
        "Server shutting down" ∉ supervisorShutdown ∧
    supervisorShutdown ≠ specShutdownOrder := by decide

/-- C8 (amended): at shutdown the relay, per endpoint (sink first, then
source), stops listening, stops the server loop and joins its listener
thread; the peer connections are then released by the server objects'
destructors and the media engine stops when the factory is destroyed
last.  No socket is closed at all during shutdown: no close-all action
of any endpoint, status or reason occurs in the sequence. -/
theorem C8_shutdown_sequence :
    supervisorShutdown =
      [ShutdownAction.stopListening Endpoint.sink,
       ShutdownAction.stopServer Endpoint.sink,
       ShutdownAction.joinThread Endpoint.sink,
       ShutdownAction.stopListening Endpoint.source,
       ShutdownAction.stopServer Endpoint.source,
       ShutdownAction.joinThread Endpoint.source,
       ShutdownAction.releasePeers Endpoint.source,
       ShutdownAction.releasePeers Endpoint.sink,
       ShutdownAction.stopMediaEngine] ∧
    ∀ e status reason,
      ShutdownAction.closeAllSockets e status reason ∉ supervisorShutdown := by
  refine ⟨rfl, ?_⟩
  intro e status reason
  simp [supervisorShutdown, shut_down]

/-- Helper: `on_message` on a well-formed description envelope, as one
equation over the offer-collision condition. -/
theorem on_message_description_eq (st : ObserverState) (ty sdp : String)
    (cand : Bool) :
    on_message st 1 (Except.ok (descriptionPayload ty sdp)) cand =
      (if ty == "offer" &&
            (st.makingOffer || st.signalingState != SignalingState.kStable) then
        { state :=
            { st with ignoreOffer :=
                ty == "offer" &&
                  (st.makingOffer || st.signalingState != SignalingState.kStable) }
          effects := [], thrown := none }
      else
        match sdpTypeFromString ty with
        | none =>
            { state :=
                { st with ignoreOffer :=
                    ty == "offer" &&
                      (st.makingOffer ||
                        st.signalingState != SignalingState.kStable) }
              effects := [], thrown := some RelayExn.badOptionalAccess }
        | some _ =>
            { state :=
                { st with ignoreOffer :=
                    ty == "offer" &&
                      (st.makingOffer ||
                        st.signalingState != SignalingState.kStable) }
              effects := [Effect.setRemoteDescription ty sdp (ty == "offer")]
              thrown := none }) := rfl

/-- C5: for an inbound description envelope with a valid SDP type, the
handler sets `ignoreOffer` to the offer-collision condition (impolite
adapter); when the collision holds the message is dropped with no effect
on the peer connection; otherwise the only effect is setting the remote
description, and — through the completion observers — an incoming offer
leads to installing a local description (the answer) whose successful
installation sends the `description` envelope. -/
theorem C5_description_negotiation (st : ObserverState) (ty sdp : String)
    (cand : Bool) (hty : sdpTypeFromString ty ≠ none) :
    ((on_message st 1 (Except.ok (descriptionPayload ty sdp)) cand).state.ignoreOffer =
      (ty == "offer" &&
        (st.makingOffer || st.signalingState != SignalingState.kStable))) ∧
    ((ty == "offer" &&
        (st.makingOffer || st.signalingState != SignalingState.kStable)) = true →
      on_message st 1 (Except.ok (descriptionPayload ty sdp)) cand =
        { state := { st with ignoreOffer := true }, effects := [], thrown := none }) ∧
    ((ty == "offer" &&
        (st.makingOffer || st.signalingState != SignalingState.kStable)) = false →
      on_message st 1 (Except.ok (descriptionPayload ty sdp)) cand =
        { state := { st with ignoreOffer := false }
          effects := [Effect.setRemoteDescription ty sdp (ty == "offer")]
          thrown := none }) ∧
    onSetRemoteDescriptionComplete true = [Effect.setLocalDescription] ∧
    onSetRemoteDescriptionComplete false = [] ∧
    (∀ ansTy ansSdp, (onSetLocalDescriptionComplete st true ansTy ansSdp true).2 =
      [Effect.logInfo "SetLocalDescription succeeded",
       Effect.sendText (SentMsg.description ansTy ansSdp)]) := by
  obtain ⟨sdpT, hsdpT⟩ := Option.ne_none_iff_exists'.mp hty
  refine ⟨?_, ?_, ?_, rfl, rfl, fun ansTy ansSdp => rfl⟩
  · rw [on_message_description_eq]
    cases hoc : (ty == "offer" &&
        (st.makingOffer || st.signalingState != SignalingState.kStable)) <;>
      simp [hoc, hsdpT]
  · intro hoc
    rw [on_message_description_eq, hoc]
    simp
  · intro hoc
    rw [on_message_description_eq, hoc]
    simp [hsdpT]

/-- C5 witness: a fresh adapter receiving an `offer` envelope with SDP
body `v=0`: no collision, so the remote description is set and the
answer pipeline sends the description envelope. -/
theorem C5_description_negotiation_witness :
    ((on_message newObserver 1 (Except.ok (descriptionPayload "offer" "v=0")) true).state.ignoreOffer =
      ("offer" == "offer" &&
        (newObserver.makingOffer ||
          newObserver.signalingState != SignalingState.kStable))) ∧
    (("offer" == "offer" &&
        (newObserver.makingOffer ||
          newObserver.signalingState != SignalingState.kStable)) = true →
      on_message newObserver 1 (Except.ok (descriptionPayload "offer" "v=0")) true =
        { state := { newObserver with ignoreOffer := true }
          effects := [], thrown := none }) ∧
    (("offer" == "offer" &&
        (newObserver.makingOffer ||
          newObserver.signalingState != SignalingState.kStable)) = false →
      on_message newObserver 1 (Except.ok (descriptionPayload "offer" "v=0")) true =
        { state := { newObserver with ignoreOffer := false }
          effects := [Effect.setRemoteDescription "offer" "v=0" ("offer" == "offer")]
          thrown := none }) ∧
    onSetRemoteDescriptionComplete true = [Effect.setLocalDescription] ∧
    onSetRemoteDescriptionComplete false = [] ∧
    (∀ ansTy ansSdp,
      (onSetLocalDescriptionComplete newObserver true ansTy ansSdp true).2 =
        [Effect.logInfo "SetLocalDescription succeeded",
         Effect.sendText (SentMsg.description ansTy ansSdp)]) :=
  C5_description_negotiation newObserver "offer" "v=0" true (by decide)

/-- C7 counterexample: with source connection 1 stored and the FanOut
holding transceiver 5, closing the source clears the source slot but the
FanOut still holds transceiver 5, and a sink accepted afterwards (handle
9) is still published the departed source's track. -/
theorem C7_counterexample :
    (relay_source_on_close
        { source := { connection := some 1, peer := some newObserver }
          sink := { connections := [], transceiver := some 5 } } 1).1 =
      { source := { connection := none, peer := none }
        sink := { connections := [], transceiver := some 5 } } ∧
    Effect.addTrack 5 "mirrored_stream" ∈
      (sink_on_open { connections := [], transceiver := some 5 } 9 true (some 3)).2 := by
  exact ⟨rfl, by decide⟩

/-- C7 (amended): when the source socket closes, the source endpoint
clears its connection and peer slots, but the sink server — including
the FanOut's stored transceiver — is left entirely unchanged, so a
subsequently accepted sink is still published the departed source's
track. -/
theorem C7_source_close_keeps_active_track (st : RelayState) (hdl : Nat)
    (h : st.source.connection = some hdl) :
    (relay_source_on_close st hdl).1.source =
      { connection := none, peer := none } ∧
    (relay_source_on_close st hdl).1.sink = st.sink ∧
    (relay_source_on_close st hdl).2 = [Effect.logWarning "source disconnected"] := by
  simp [relay_source_on_close, source_on_close, h]

/-- C7 witness: the amended statement at the concrete relay state with
source connection 1 and FanOut transceiver 5. -/
theorem C7_source_close_keeps_active_track_witness :
    (relay_source_on_close
        { source := { connection := some 1, peer := some newObserver }
          sink := { connections := [], transceiver := some 5 } } 1).1.source =
      { connection := none, peer := none } ∧
    (relay_source_on_close
        { source := { connection := some 1, peer := some newObserver }
          sink := { connections := [], transceiver := some 5 } } 1).1.sink =
      RelayState.sink
        { source := { connection := some 1, peer := some newObserver }
          sink := { connections := [], transceiver := some 5 } } ∧
    (relay_source_on_close
        { source := { connection := some 1, peer := some newObserver }
          sink := { connections := [], transceiver := some 5 } } 1).2 =
      [Effect.logWarning "source disconnected"] :=
  C7_source_close_keeps_active_track
    { source := { connection := some 1, peer := some newObserver }
      sink := { connections := [], transceiver := some 5 } } 1 rfl

/-- C9: accepting a sink whose handle is not yet registered publishes
the FanOut's stored transceiver, when one is set, before registering the
adapter (the add-track effect precedes the registration step); when no
transceiver is stored, no publish effect occurs on accept. -/
theorem C9_immediate_publish (st : SinkServerState) (hdl : Nat)
    (removeOk : Bool) (addResult : Option Nat)
    (hnew : lookupCon st.connections hdl = none) :
    (∀ t, st.transceiver = some t →
      (sink_on_open st hdl removeOk addResult).2 =
        [Effect.logInfo "New sink has appeared",
         Effect.addTrack t "mirrored_stream",
         (match addResult with
          | none => Effect.logError "failed to add track:"
          | some _ => Effect.logInfo "added track to peer"),
         Effect.registerSink hdl]) ∧
    (st.transceiver = none →
      (sink_on_open st hdl removeOk addResult).2 =
        [Effect.logInfo "New sink has appeared", Effect.registerSink hdl]) := by
  constructor
  · intro t ht
    cases addResult <;>
      simp [sink_on_open, hnew, ht, switch_track, newObserver, receiverTrack]
  · intro ht
    simp [sink_on_open, hnew, ht]

/-- C9 witness: the two cases at concrete states — an empty registry
with transceiver 5 (publish happens before registration) and an empty
registry with no transceiver (no publish). -/
theorem C9_immediate_publish_witness :
    ((∀ t, ({ connections := [], transceiver := some 5 } : SinkServerState).transceiver = some t →
      (sink_on_open { connections := [], transceiver := some 5 } 1 true (some 2)).2 =
        [Effect.logInfo "New sink has appeared",
         Effect.addTrack t "mirrored_stream",
         (match (some 2 : Option Nat) with
          | none => Effect.logError "failed to add track:"
          | some _ => Effect.logInfo "added track to peer"),
         Effect.registerSink 1]) ∧
    (({ connections := [], transceiver := some 5 } : SinkServerState).transceiver = none →
      (sink_on_open { connections := [], transceiver := some 5 } 1 true (some 2)).2 =
        [Effect.logInfo "New sink has appeared", Effect.registerSink 1])) ∧
    ((∀ t, ({ connections := [], transceiver := none } : SinkServerState).transceiver = some t →
      (sink_on_open { connections := [], transceiver := none } 1 true none).2 =
        [Effect.logInfo "New sink has appeared",
         Effect.addTrack t "mirrored_stream",
         (match (none : Option Nat) with
          | none => Effect.logError "failed to add track:"
          | some _ => Effect.logInfo "added track to peer"),
         Effect.registerSink 1]) ∧
    (({ connections := [], transceiver := none } : SinkServerState).transceiver = none →
      (sink_on_open { connections := [], transceiver := none } 1 true none).2 =
        [Effect.logInfo "New sink has appeared", Effect.registerSink 1])) :=
  ⟨C9_immediate_publish { connections := [], transceiver := some 5 } 1 true (some 2) rfl,
   C9_immediate_publish { connections := [], transceiver := none } 1 true none rfl⟩

/-- C10: a second open event for a handle already present in the sink
registry creates no adapter and changes nothing: the state (registry
included) is returned untouched and only the accept log is emitted. -/
theorem C10_sink_open_idempotent (st : SinkServerState) (hdl : Nat)
    (p : ObserverState) (removeOk : Bool) (addResult : Option Nat)
    (h : lookupCon st.connections hdl = some p) :
    sink_on_open st hdl removeOk addResult =
      (st, [Effect.logInfo "New sink has appeared"]) := by
  simp [sink_on_open, h]

/-- C10 witness: a registry already holding handle 1 with a fresh
adapter; a second open for handle 1 leaves it unchanged. -/
theorem C10_sink_open_idempotent_witness :
    sink_on_open { connections := [(1, newObserver)], transceiver := some 5 }
        1 true (some 2) =
      ({ connections := [(1, newObserver)], transceiver := some 5 },
       [Effect.logInfo "New sink has appeared"]) :=
  C10_sink_open_idempotent
    { connections := [(1, newObserver)], transceiver := some 5 } 1 newObserver
    true (some 2) rfl

end Relay
